import Mathlib

/-!
Shallow embedding of the realtime voice-translation relay of
`src/routes/realtime.ts` (together with the parts of
`src/services/dbService.ts` it calls), and proofs of the claims about it.

The relay keeps one `RealtimeSession` per client WebSocket connection in a
module-level map, bridges client audio to the upstream Gemini live engine,
accumulates transcripts and audio chunks, and persists them in `endSession`.
External effects (frames sent to the client, frames sent upstream, database
and object-storage calls) are made explicit as result lists; the outcomes of
the fallible external collaborators are supplied by a `FinalizeEnv` oracle.
-/

namespace Realtime

/-- Readiness of a `ws` WebSocket handle (`readyState`). -/
inductive WsReady
  | connecting
  | openR
  | closing
  | closedR
deriving DecidableEq, Repr

/-- The per-session record of `realtime.ts` (interface `RealtimeSession`).
`clientWs` is implicit (frames written to it are returned as lists);
`geminiWs` is `none` until `setupGeminiConnection` assigns it, and otherwise
carries the `readyState` of the handle.  Byte buffers (`Buffer`) are
`List Nat`; timestamps are milliseconds since epoch as `Nat`. -/
structure RealtimeSession where
  id : String
  userId : Option String
  geminiWs : Option WsReady
  sourceLanguage : String
  targetLanguage : String
  userTranscription : String
  modelTranscription : String
  userAudioChunks : List (List Nat)
  aiAudioChunks : List (List Nat)
  startTime : Nat
deriving DecidableEq, Repr

/-- JSON frames the server writes to the client socket. -/
inductive ClientFrame
  | sessionIdF (sessionId : String)
  | ready
  | userDelta (text accumulated : String)
  | modelDelta (text accumulated : String)
  | audioOut (data : String)
  | turnCompleteF (userTranscription modelTranscription : String)
  | sessionSaved (interactionId : String) (userAudioUrl translationAudioUrl : Option String)
  | errorF (message : String)
  | geminiDisconnected
deriving DecidableEq, Repr

/-- Frames the relay writes to the upstream Gemini socket. -/
inductive UpstreamFrame
  | setupFrame (sourceLanguage targetLanguage : String)
  | realtimeAudio (data : String)
deriving DecidableEq, Repr

/-- Six-bit value of a standard base64 alphabet character (the Node
base64 decoder ignores characters outside the alphabet). -/
def base64Val (c : Char) : Option Nat :=
  if 'A' ≤ c ∧ c ≤ 'Z' then some (c.toNat - 65)
  else if 'a' ≤ c ∧ c ≤ 'z' then some (c.toNat - 71)
  else if '0' ≤ c ∧ c ≤ '9' then some (c.toNat + 4)
  else if c = '+' then some 62
  else if c = '/' then some 63
  else none

/-- Regroup a stream of six-bit values into bytes. -/
def decodeGroups : List Nat → List Nat
  | a :: b :: c :: d :: rest =>
      (a * 4 + b / 16) :: ((b % 16) * 16 + c / 4) :: ((c % 4) * 64 + d) :: decodeGroups rest
  | [a, b, c] => [a * 4 + b / 16, (b % 16) * 16 + c / 4]
  | [a, b] => [a * 4 + b / 16]
  | _ => []

/-- Embedding of the Node base64 decoding used by the source as
Buffer.from(audioData, base64). -/
def bufferFromBase64 (s : String) : List Nat :=
  decodeGroups (s.data.filterMap base64Val)

/-- The fields of a parsed upstream Gemini frame that
`handleGeminiMessage` inspects under `message.serverContent`:
the optional `inputTranscription.text` and `outputTranscription.text`
strings, the optional `modelTurn.parts[0].inlineData.data` base64 audio
payload, and the `turnComplete` flag. -/
structure ServerContent where
  inputTranscription : Option String
  outputTranscription : Option String
  modelTurnAudio : Option String
  turnComplete : Bool
deriving DecidableEq, Repr

/-- A successfully JSON-parsed upstream frame: `setupComplete` flag and the
optional `serverContent` object. -/
structure GeminiParsed where
  setupComplete : Bool
  serverContent : Option ServerContent
deriving DecidableEq, Repr

/-- JavaScript truthiness of an optional string (`undefined` and the empty
string are falsy). -/
def truthy : Option String → Bool
  | some t => t ≠ ""
  | none => false

/-- The `serverContent.inputTranscription?.text` statement of
`handleGeminiMessage`: when the delta is truthy, append it to
`userTranscription` and send the `user_transcription` frame. -/
def applyInputDelta (s : RealtimeSession) (sc : ServerContent) :
    RealtimeSession × List ClientFrame :=
  if truthy sc.inputTranscription then
    let t := sc.inputTranscription.getD ""
    ({ s with userTranscription := s.userTranscription ++ t },
     [ClientFrame.userDelta t (s.userTranscription ++ t)])
  else (s, [])

/-- The `serverContent.outputTranscription?.text` statement of
`handleGeminiMessage`: when the delta is truthy, append it to
`modelTranscription` and send the `model_transcription` frame. -/
def applyOutputDelta (s : RealtimeSession) (sc : ServerContent) :
    RealtimeSession × List ClientFrame :=
  if truthy sc.outputTranscription then
    let t := sc.outputTranscription.getD ""
    ({ s with modelTranscription := s.modelTranscription ++ t },
     [ClientFrame.modelDelta t (s.modelTranscription ++ t)])
  else (s, [])

/-- The `serverContent.modelTurn?.parts?.[0]?.inlineData?.data` statement of
`handleGeminiMessage`: when the payload is truthy, push the decoded bytes
onto `aiAudioChunks` and echo the audio frame to the client. -/
def applyModelAudio (s : RealtimeSession) (sc : ServerContent) :
    RealtimeSession × List ClientFrame :=
  if truthy sc.modelTurnAudio then
    let d := sc.modelTurnAudio.getD ""
    ({ s with aiAudioChunks := s.aiAudioChunks ++ [bufferFromBase64 d] },
     [ClientFrame.audioOut d])
  else (s, [])

/-- The `serverContent.turnComplete` statement of `handleGeminiMessage`:
send the turn boundary with the accumulated transcripts. -/
def turnCompleteFrames (s : RealtimeSession) (sc : ServerContent) : List ClientFrame :=
  if sc.turnComplete then
    [ClientFrame.turnCompleteF s.userTranscription s.modelTranscription]
  else []

/-- Embedding of `handleGeminiMessage(session, data)`: `none` stands for a frame whose
`JSON.parse` threw — it is logged and dropped in the catch block.  A parsed
frame is demultiplexed exactly as the source does: `setupComplete` answers
`ready` and returns; absent `serverContent` returns; otherwise the input
transcription delta, the output transcription delta, the inline audio
payload and the `turnComplete` flag are handled in that order. -/
def handleGeminiMessage (s : RealtimeSession) (data : Option GeminiParsed) :
    RealtimeSession × List ClientFrame :=
  match data with
  | none => (s, [])
  | some m =>
    if m.setupComplete then
      (s, [ClientFrame.ready])
    else
      match m.serverContent with
      | none => (s, [])
      | some sc =>
        let p1 := applyInputDelta s sc
        let p2 := applyOutputDelta p1.1 sc
        let p3 := applyModelAudio p2.1 sc
        (p3.1, p1.2 ++ p2.2 ++ p3.2 ++ turnCompleteFrames p3.1 sc)

/-- The guard of `forwardAudioToGemini`:
`!session.geminiWs || session.geminiWs.readyState !== WebSocket.OPEN`. -/
def geminiNotReady (s : RealtimeSession) : Bool :=
  match s.geminiWs with
  | none => true
  | some st => st ≠ WsReady.openR

/-- Result of `forwardAudioToGemini`: the updated session, the frames
written to the client and the frames written upstream. -/
structure ForwardResult where
  session : RealtimeSession
  toClient : List ClientFrame
  toGemini : List UpstreamFrame
deriving DecidableEq, Repr

/-- Embedding of `forwardAudioToGemini(session, audioData)`: when the upstream handle is
absent or not OPEN, send the client a "not ready" error and return;
otherwise append the decoded bytes to `userAudioChunks` and forward the
`realtimeInput.mediaChunks` envelope upstream. -/
def forwardAudioToGemini (s : RealtimeSession) (audioData : String) : ForwardResult :=
  if geminiNotReady s then
    { session := s
      toClient := [ClientFrame.errorF "Gemini connection not ready"]
      toGemini := [] }
  else
    { session := { s with userAudioChunks := s.userAudioChunks ++ [bufferFromBase64 audioData] }
      toClient := []
      toGemini := [UpstreamFrame.realtimeAudio audioData] }

/-- Calls `endSession` makes on the storage and object-storage
collaborators (`dbService.ts`, `cloudinaryService.ts`), recorded in order. -/
inductive DbCall
  | saveInteractionC (typ sourceLanguage targetLanguage geminiInteractionId : String)
      (userId : Option String)
  | saveVoiceSessionC (interactionId transcription translation summary : String)
      (duration : Nat)
  | uploadBufferC (buf : List Nat) (interactionId source : String)
  | updateAudioUrlsC (interactionId : String) (userAudioUrl translationAudioUrl : Option String)
deriving DecidableEq, Repr

/-- Oracle for the external world during one `endSession` run: the current
time, whether Cloudinary is configured, and the outcome of each fallible
collaborator call (`none` / `false` meaning the call throws). -/
structure FinalizeEnv where
  now : Nat
  cloudinaryConfigured : Bool
  saveInteractionResult : Option String
  saveVoiceSessionOk : Bool
  uploadUserResult : Option String
  uploadAiResult : Option String
  updateUrlsOk : Bool
  clientOpen : Bool
deriving DecidableEq, Repr

/-- Result of one `endSession` run. -/
structure EndResult where
  session : RealtimeSession
  calls : List DbCall
  toClient : List ClientFrame
deriving DecidableEq, Repr

/-- First statement of `endSession`: close the Gemini socket if it is OPEN
(the field itself is never reset to null). -/
def closeGemini (s : RealtimeSession) : RealtimeSession :=
  match s.geminiWs with
  | some WsReady.openR => { s with geminiWs := some WsReady.closing }
  | _ => s

/-- Embedding of `endSession(session)`.  Mirrors the source control flow: close the
upstream socket; if either transcription buffer is non-empty, run the big
try block — `saveInteraction`, `saveVoiceSession`, the two independent
Cloudinary uploads (each in its own try/catch), `updateVoiceSessionAudioUrls`
when at least one URL is truthy, and finally the guarded `session_saved`
send.  A throw from `saveInteraction`, `saveVoiceSession` or
`updateVoiceSessionAudioUrls` lands in the outer catch, which only logs. -/
def endSession (s : RealtimeSession) (env : FinalizeEnv) : EndResult :=
  let s1 := closeGemini s
  if s.userTranscription ≠ "" ∨ s.modelTranscription ≠ "" then
    let duration := (env.now - s.startTime) / 1000
    let c0 := DbCall.saveInteractionC "voice" s.sourceLanguage s.targetLanguage s.id s.userId
    match env.saveInteractionResult with
    | none => { session := s1, calls := [c0], toClient := [] }
    | some interactionId =>
      let c1 := DbCall.saveVoiceSessionC interactionId s.userTranscription
        s.modelTranscription "" duration
      if ¬ env.saveVoiceSessionOk then
        { session := s1, calls := [c0, c1], toClient := [] }
      else
        let userUpload :
            List DbCall × Option String :=
          if env.cloudinaryConfigured ∧ s.userAudioChunks ≠ [] then
            ([DbCall.uploadBufferC s.userAudioChunks.flatten interactionId "user"],
             env.uploadUserResult)
          else ([], none)
        let aiUpload :
            List DbCall × Option String :=
          if env.cloudinaryConfigured ∧ s.aiAudioChunks ≠ [] then
            ([DbCall.uploadBufferC s.aiAudioChunks.flatten interactionId "ai"],
             env.uploadAiResult)
          else ([], none)
        let userAudioUrl := userUpload.2
        let translationAudioUrl := aiUpload.2
        let upd :
            List DbCall × Bool :=
          if env.cloudinaryConfigured ∧ (truthy userAudioUrl ∨ truthy translationAudioUrl) then
            ([DbCall.updateAudioUrlsC interactionId userAudioUrl translationAudioUrl],
             env.updateUrlsOk)
          else ([], true)
        let callsAll := [c0, c1] ++ userUpload.1 ++ aiUpload.1 ++ upd.1
        if ¬ upd.2 then
          { session := s1, calls := callsAll, toClient := [] }
        else
          { session := s1
            calls := callsAll
            toClient :=
              if env.clientOpen then
                [ClientFrame.sessionSaved interactionId userAudioUrl translationAudioUrl]
              else [] }
  else
    { session := s1, calls := [], toClient := [] }

/-- The column assignments built by `updateVoiceSessionAudioUrls` in
`dbService.ts`: a key is included exactly when the corresponding argument
is not `undefined`. -/
def updateVoiceSessionAudioUrlsData (userAudioUrl translationAudioUrl : Option String) :
    List (String × String) :=
  (match userAudioUrl with
   | some u => [("userAudioUrl", u)]
   | none => []) ++
  (match translationAudioUrl with
   | some u => [("translationAudioUrl", u)]
   | none => [])

/-- Modelled from the spec: the abstract session states of the Session
State Machine (spec section 4.2).  The source has no state field; this is
the spec-side ghost used to compare the spec's state machine with the
code's behaviour.  The transient Finalizing state is not observable
between events of the embedding (the Finalizer runs within the event that
triggers it), so the phase moves directly to Closed there. -/
inductive SessionPhase
  | connecting
  | configuring
  | streaming
  | closedP
deriving DecidableEq, Repr

/-- A client-to-server message after `JSON.parse`, dispatched on its
`type` field by `handleClientMessage`; `unknown` covers every other
`type` string (logged and ignored). -/
inductive ClientMsg
  | setup (sourceLanguage targetLanguage : Option String)
  | audio (data : String)
  | endMsg
  | unknown (typ : String)
deriving DecidableEq, Repr

/-- Events delivered to the handlers of one connection: client messages
(or a client frame whose `JSON.parse` threw), the client socket closing,
and the open / message / close / error callbacks of the upstream socket. -/
inductive Event
  | clientMsg (m : ClientMsg)
  | clientUnparseable
  | clientClose
  | geminiOpen
  | geminiMsg (m : Option GeminiParsed)
  | geminiClose
  | geminiErr
deriving DecidableEq, Repr

/-- State of one connection as seen by `createRealtimeWebSocketServer`:
the session record, whether the session id is still in the module-level
`sessions` map, whether the client socket has closed, and the accumulated
outputs.  `finalizeCount` is a ghost counter of how many times the
`endSession` body has run; `phase` is the spec-side ghost state. -/
structure GatewayState where
  session : RealtimeSession
  inRegistry : Bool
  socketClosed : Bool
  finalizeCount : Nat
  phase : SessionPhase
  calls : List DbCall
  toClient : List ClientFrame
  toGemini : List UpstreamFrame
deriving DecidableEq, Repr

/-- Initialisation of the connection handler: a fresh session with default
languages `en` / `hi` and empty accumulators is put into the `sessions`
map and the `session_id` frame is sent. -/
def initState (sid : String) (userId : Option String) (t0 : Nat) : GatewayState :=
  { session :=
      { id := sid
        userId := userId
        geminiWs := none
        sourceLanguage := "en"
        targetLanguage := "hi"
        userTranscription := ""
        modelTranscription := ""
        userAudioChunks := []
        aiAudioChunks := []
        startTime := t0 }
    inRegistry := true
    socketClosed := false
    finalizeCount := 0
    phase := SessionPhase.connecting
    calls := []
    toClient := [ClientFrame.sessionIdF sid]
    toGemini := [] }

/-- JavaScript falsy-fallback defaulting, as in the source expression
config.sourceLanguage || en. -/
def orDefault (v : Option String) (d : String) : String :=
  match v with
  | some t => if t ≠ "" then t else d
  | none => d

/-- Embedding of `setupGeminiConnection(session, config)`: set the languages; if the
API key is missing, send an error frame and return with `geminiWs` still
null; otherwise assign a fresh CONNECTING WebSocket handle (its open
callback fires later as a `geminiOpen` event). -/
def setupGeminiConnection (apiKeyConfigured : Bool) (s : RealtimeSession)
    (src tgt : Option String) : RealtimeSession × List ClientFrame :=
  let s1 := { s with
    sourceLanguage := orDefault src "en"
    targetLanguage := orDefault tgt "hi" }
  if ¬ apiKeyConfigured then
    (s1, [ClientFrame.errorF "Gemini API key not configured"])
  else
    ({ s1 with geminiWs := some WsReady.connecting }, [])

/-- Whether a parsed upstream frame is the `setupComplete` signal (the one
that makes `handleGeminiMessage` answer `ready`). -/
def isSetupComplete : Option GeminiParsed → Bool
  | some m => m.setupComplete
  | none => false

/-- One event step of the connection handler.  Client messages are only
delivered while the client socket is open; upstream callbacks only exist
once `geminiWs` has been assigned.  The `end` intent runs `endSession` but
does not remove the session from the map; the close handler runs
`endSession` and then `sessions.delete(sessionId)`.  Spec-phase ghost
updates follow spec section 4.2: configure intent takes Connecting to
Configuring, the upstream ready signal takes it to Streaming, and either
finalization trigger ends at Closed. -/
def step (apiKeyConfigured : Bool) (st : GatewayState) (e : Event) (env : FinalizeEnv) :
    GatewayState :=
  match e with
  | Event.clientMsg m =>
    if st.socketClosed then st
    else
      match m with
      | ClientMsg.setup src tgt =>
        let r := setupGeminiConnection apiKeyConfigured st.session src tgt
        { st with
            session := r.1
            toClient := st.toClient ++ r.2
            phase := SessionPhase.configuring }
      | ClientMsg.audio d =>
        let r := forwardAudioToGemini st.session d
        { st with
            session := r.session
            toClient := st.toClient ++ r.toClient
            toGemini := st.toGemini ++ r.toGemini }
      | ClientMsg.endMsg =>
        let r := endSession st.session env
        { st with
            session := r.session
            calls := st.calls ++ r.calls
            toClient := st.toClient ++ r.toClient
            finalizeCount := st.finalizeCount + 1
            phase := SessionPhase.closedP }
      | ClientMsg.unknown _ => st
  | Event.clientUnparseable =>
    if st.socketClosed then st
    else { st with toClient := st.toClient ++ [ClientFrame.errorF "Invalid message format"] }
  | Event.clientClose =>
    let r := endSession st.session env
    { st with
        session := r.session
        calls := st.calls ++ r.calls
        toClient := st.toClient ++ r.toClient
        finalizeCount := st.finalizeCount + 1
        inRegistry := false
        socketClosed := true
        phase := SessionPhase.closedP }
  | Event.geminiOpen =>
    match st.session.geminiWs with
    | some WsReady.connecting =>
      { st with
          session := { st.session with geminiWs := some WsReady.openR }
          toGemini := st.toGemini ++
            [UpstreamFrame.setupFrame st.session.sourceLanguage st.session.targetLanguage] }
    | _ => st
  | Event.geminiMsg m =>
    match st.session.geminiWs with
    | none => st
    | some _ =>
      let r := handleGeminiMessage st.session m
      { st with
          session := r.1
          toClient := st.toClient ++ r.2
          phase := if isSetupComplete m then SessionPhase.streaming else st.phase }
  | Event.geminiClose =>
    match st.session.geminiWs with
    | none => st
    | some _ =>
      { st with
          session := { st.session with geminiWs := some WsReady.closedR }
          toClient := st.toClient ++ [ClientFrame.geminiDisconnected] }
  | Event.geminiErr =>
    match st.session.geminiWs with
    | none => st
    | some _ =>
      { st with toClient := st.toClient ++ [ClientFrame.errorF "Gemini connection error"] }

/-- Run a trace of events (each with its oracle for external outcomes). -/
def run (apiKeyConfigured : Bool) (st : GatewayState) (evs : List (Event × FinalizeEnv)) :
    GatewayState :=
  evs.foldl (fun t p => step apiKeyConfigured t p.1 p.2) st

/-- Does a call list contain a `saveInteraction` call? -/
def hasSaveInteraction (cs : List DbCall) : Bool :=
  cs.any fun c =>
    match c with
    | DbCall.saveInteractionC _ _ _ _ _ => true
    | _ => false

/-- Does a call list contain a `saveVoiceSession` call? -/
def hasSaveVoiceSession (cs : List DbCall) : Bool :=
  cs.any fun c =>
    match c with
    | DbCall.saveVoiceSessionC _ _ _ _ _ => true
    | _ => false

/-- Number of `saveInteraction` calls in a call list. -/
def countSaveInteraction (cs : List DbCall) : Nat :=
  (cs.filter fun c =>
    match c with
    | DbCall.saveInteractionC _ _ _ _ _ => true
    | _ => false).length

/-- A transcript delta as delivered by the upstream engine: either an
input-transcription delta (user speech) or an output-transcription delta
(model speech). -/
inductive TranscriptDelta
  | userD (text : String)
  | modelD (text : String)
deriving DecidableEq, Repr

/-- The upstream frame carrying one transcript delta. -/
def deltaFrame : TranscriptDelta → GeminiParsed
  | TranscriptDelta.userD t =>
    { setupComplete := false
      serverContent := some
        { inputTranscription := some t, outputTranscription := none
          modelTurnAudio := none, turnComplete := false } }
  | TranscriptDelta.modelD t =>
    { setupComplete := false
      serverContent := some
        { inputTranscription := none, outputTranscription := some t
          modelTurnAudio := none, turnComplete := false } }

/-- Deliver a sequence of transcript deltas to `handleGeminiMessage`, in
order. -/
def processDeltas (s : RealtimeSession) (ds : List TranscriptDelta) : RealtimeSession :=
  ds.foldl (fun t d => (handleGeminiMessage t (some (deltaFrame d))).1) s

/-- The user-delta texts of a delta sequence, in order. -/
def userTexts : List TranscriptDelta → List String
  | [] => []
  | TranscriptDelta.userD t :: r => t :: userTexts r
  | TranscriptDelta.modelD _ :: r => userTexts r

/-- The model-delta texts of a delta sequence, in order. -/
def modelTexts : List TranscriptDelta → List String
  | [] => []
  | TranscriptDelta.userD _ :: r => modelTexts r
  | TranscriptDelta.modelD t :: r => t :: modelTexts r

/-- The bytes an upstream frame contributes to the user audio buffer. -/
def upstreamAudioBytes : UpstreamFrame → List Nat
  | UpstreamFrame.realtimeAudio d => bufferFromBase64 d
  | UpstreamFrame.setupFrame _ _ => []

/-- A finalize-time oracle in which every external call succeeds. -/
def envOk : FinalizeEnv :=
  { now := 5000
    cloudinaryConfigured := false
    saveInteractionResult := some "int1"
    saveVoiceSessionOk := true
    uploadUserResult := none
    uploadAiResult := none
    updateUrlsOk := true
    clientOpen := true }

/-- A finalize-time oracle in which `saveInteraction` throws while the
client socket is still open. -/
def envSaveFails : FinalizeEnv :=
  { now := 5000
    cloudinaryConfigured := false
    saveInteractionResult := none
    saveVoiceSessionOk := true
    uploadUserResult := none
    uploadAiResult := none
    updateUrlsOk := true
    clientOpen := true }

/-- A finalize-time oracle in which `saveInteraction` succeeds but
`saveVoiceSession` throws, while the client socket is still open. -/
def envVoiceFails : FinalizeEnv :=
  { now := 5000
    cloudinaryConfigured := false
    saveInteractionResult := some "int1"
    saveVoiceSessionOk := false
    uploadUserResult := none
    uploadAiResult := none
    updateUrlsOk := true
    clientOpen := true }

/-- A finalize-time oracle with Cloudinary configured in which the user
audio upload succeeds and the AI audio upload throws. -/
def envAiUploadFails : FinalizeEnv :=
  { now := 5000
    cloudinaryConfigured := true
    saveInteractionResult := some "int1"
    saveVoiceSessionOk := true
    uploadUserResult := some "https://cdn.example/user.wav"
    uploadAiResult := none
    updateUrlsOk := true
    clientOpen := true }

/-- The upstream frame carrying the `inputTranscription` delta "hello". -/
def helloDelta : GeminiParsed := deltaFrame (TranscriptDelta.userD "hello")

/-- A session mid-stream: upstream OPEN, a user transcription accumulated. -/
def sessionHello : RealtimeSession :=
  { id := "s1"
    userId := none
    geminiWs := some WsReady.openR
    sourceLanguage := "en"
    targetLanguage := "hi"
    userTranscription := "hello"
    modelTranscription := "namaste"
    userAudioChunks := []
    aiAudioChunks := []
    startTime := 0 }

/-- A session with transcripts and one audio chunk in each buffer. -/
def sessionWithAudio : RealtimeSession :=
  { sessionHello with
      userAudioChunks := [[1, 2, 3]]
      aiAudioChunks := [[4, 5]] }

/-- A freshly created session that has not processed any intent. -/
def sessionFresh : RealtimeSession :=
  (initState "s1" none 0).session

/-- The normal lifetime of one session: configure, upstream open and
ready, one transcript delta, explicit end intent, then the client socket
closes. -/
def normalTrace : List (Event × FinalizeEnv) :=
  [(Event.clientMsg (ClientMsg.setup (some "en") (some "hi")), envOk),
   (Event.geminiOpen, envOk),
   (Event.geminiMsg (some { setupComplete := true, serverContent := none }), envOk),
   (Event.geminiMsg (some helloDelta), envOk),
   (Event.clientMsg ClientMsg.endMsg, envOk),
   (Event.clientClose, envOk)]

/-- The spec-state facts about the upstream handle that the code does
maintain: null while Connecting, non-null while Streaming. -/
def PhaseInv (st : GatewayState) : Prop :=
  (st.phase = SessionPhase.connecting → st.session.geminiWs = none)
  ∧ (st.phase = SessionPhase.streaming → st.session.geminiWs ≠ none)

end Realtime

namespace Realtime

/-! ## Shared lemmas -/

lemma join_cons (t : String) (ts : List String) :
    String.join (t :: ts) = t ++ String.join ts := by
  have key : ∀ (l : List String) (a : String),
      l.foldl (fun r u => r ++ u) a = a ++ String.join l := by
    intro l
    induction l with
    | nil => intro a; simp [String.join, String.append_empty]
    | cons u l ih =>
      intro a
      show l.foldl _ (a ++ u) = a ++ String.join (u :: l)
      rw [ih (a ++ u)]
      have h2 : String.join (u :: l) = u ++ String.join l := by
        show l.foldl _ ("" ++ u) = u ++ String.join l
        rw [String.empty_append, ih u]
      rw [h2, String.append_assoc]
  show ts.foldl _ ("" ++ t) = t ++ String.join ts
  rw [String.empty_append, key ts t]

lemma handleGemini_userDelta (s : RealtimeSession) (t : String) :
    (handleGeminiMessage s (some (deltaFrame (TranscriptDelta.userD t)))).1
      = { s with userTranscription := s.userTranscription ++ t } := by
  by_cases ht : t = ""
  · subst ht
    simp [handleGeminiMessage, deltaFrame, applyInputDelta, applyOutputDelta, applyModelAudio,
      truthy, String.append_empty]
  · simp [handleGeminiMessage, deltaFrame, applyInputDelta, applyOutputDelta, applyModelAudio,
      truthy, ht]

lemma handleGemini_modelDelta (s : RealtimeSession) (t : String) :
    (handleGeminiMessage s (some (deltaFrame (TranscriptDelta.modelD t)))).1
      = { s with modelTranscription := s.modelTranscription ++ t } := by
  by_cases ht : t = ""
  · subst ht
    simp [handleGeminiMessage, deltaFrame, applyInputDelta, applyOutputDelta, applyModelAudio,
      truthy, String.append_empty]
  · simp [handleGeminiMessage, deltaFrame, applyInputDelta, applyOutputDelta, applyModelAudio,
      truthy, ht]

lemma applyInputDelta_geminiWs (s : RealtimeSession) (sc : ServerContent) :
    (applyInputDelta s sc).1.geminiWs = s.geminiWs := by
  unfold applyInputDelta; split <;> rfl

lemma applyOutputDelta_geminiWs (s : RealtimeSession) (sc : ServerContent) :
    (applyOutputDelta s sc).1.geminiWs = s.geminiWs := by
  unfold applyOutputDelta; split <;> rfl

lemma applyModelAudio_geminiWs (s : RealtimeSession) (sc : ServerContent) :
    (applyModelAudio s sc).1.geminiWs = s.geminiWs := by
  unfold applyModelAudio; split <;> rfl

lemma handleGemini_geminiWs (s : RealtimeSession) (m : Option GeminiParsed) :
    (handleGeminiMessage s m).1.geminiWs = s.geminiWs := by
  cases m with
  | none => rfl
  | some m =>
    by_cases hb : m.setupComplete = true
    · simp [handleGeminiMessage, hb]
    · cases hsc : m.serverContent with
      | none => simp [handleGeminiMessage, hb, hsc]
      | some sc =>
        simp [handleGeminiMessage, hb, hsc, applyModelAudio_geminiWs,
          applyOutputDelta_geminiWs, applyInputDelta_geminiWs]

lemma forwardAudio_geminiWs (s : RealtimeSession) (d : String) :
    (forwardAudioToGemini s d).session.geminiWs = s.geminiWs := by
  unfold forwardAudioToGemini; split <;> rfl

lemma phaseInv_step (a : Bool) (st : GatewayState) (e : Event) (env : FinalizeEnv)
    (h : PhaseInv st) : PhaseInv (step a st e env) := by
  obtain ⟨h1, h2⟩ := h
  cases e with
  | clientMsg m =>
    by_cases hc : st.socketClosed
    · simpa [step, hc] using ⟨h1, h2⟩
    · cases m with
      | setup src tgt =>
        constructor <;> intro hp <;> simp [step, hc] at hp
      | audio d =>
        constructor <;> intro hp <;> simp [step, hc] at hp ⊢ <;>
          rw [forwardAudio_geminiWs]
        · exact h1 hp
        · exact h2 hp
      | endMsg =>
        constructor <;> intro hp <;> simp [step, hc] at hp
      | unknown t =>
        simpa [step, hc] using ⟨h1, h2⟩
  | clientUnparseable =>
    by_cases hc : st.socketClosed
    · simpa [step, hc] using ⟨h1, h2⟩
    · constructor <;> intro hp <;> simp [step, hc] at hp ⊢
      · exact h1 hp
      · exact h2 hp
  | clientClose =>
    constructor <;> intro hp <;> simp [step] at hp
  | geminiOpen =>
    cases hw : st.session.geminiWs with
    | none => simpa [step, hw] using ⟨h1, h2⟩
    | some w =>
      cases w with
      | connecting =>
        constructor <;> intro hp <;> simp [step, hw] at hp ⊢
        have hcontra := h1 hp
        rw [hw] at hcontra
        exact Option.noConfusion hcontra
      | openR => simpa [step, hw] using ⟨h1, h2⟩
      | closing => simpa [step, hw] using ⟨h1, h2⟩
      | closedR => simpa [step, hw] using ⟨h1, h2⟩
  | geminiMsg m =>
    cases hw : st.session.geminiWs with
    | none => simpa [step, hw] using ⟨h1, h2⟩
    | some w =>
      constructor <;> intro hp <;> simp [step, hw] at hp ⊢
      · by_cases hm : isSetupComplete m = true
        · simp [hm] at hp
        · simp [hm] at hp
          have hcontra := h1 hp
          rw [hw] at hcontra
          exact Option.noConfusion hcontra
      · rw [handleGemini_geminiWs, hw]
        simp
  | geminiClose =>
    cases hw : st.session.geminiWs with
    | none => simpa [step, hw] using ⟨h1, h2⟩
    | some w =>
      constructor <;> intro hp <;> simp [step, hw] at hp ⊢
      have hcontra := h1 hp
      rw [hw] at hcontra
      exact Option.noConfusion hcontra
  | geminiErr =>
    cases hw : st.session.geminiWs with
    | none => simpa [step, hw] using ⟨h1, h2⟩
    | some w =>
      constructor <;> intro hp <;> simp [step, hw] at hp ⊢
      have hcontra := h1 hp
      rw [hw] at hcontra
      exact Option.noConfusion hcontra

lemma phaseInv_run (a : Bool) (st : GatewayState) (evs : List (Event × FinalizeEnv))
    (h : PhaseInv st) : PhaseInv (run a st evs) := by
  induction evs generalizing st with
  | nil => simpa [run] using h
  | cons p evs ih =>
    show PhaseInv (run a (step a st p.1 p.2) evs)
    exact ih _ (phaseInv_step a st p.1 p.2 h)

lemma step_inRegistry_false (a : Bool) (st : GatewayState) (e : Event) (env : FinalizeEnv)
    (h : st.inRegistry = false) : (step a st e env).inRegistry = false := by
  cases e with
  | clientMsg m =>
    by_cases hc : st.socketClosed
    · simp [step, hc, h]
    · cases m <;> simp [step, hc, h]
  | clientUnparseable => by_cases hc : st.socketClosed <;> simp [step, hc, h]
  | clientClose => simp [step]
  | geminiOpen =>
    cases hw : st.session.geminiWs with
    | none => simp [step, hw, h]
    | some w => cases w <;> simp [step, hw, h]
  | geminiMsg m => cases hw : st.session.geminiWs <;> simp [step, hw, h]
  | geminiClose => cases hw : st.session.geminiWs <;> simp [step, hw, h]
  | geminiErr => cases hw : st.session.geminiWs <;> simp [step, hw, h]

lemma run_inRegistry_false (a : Bool) (st : GatewayState) (evs : List (Event × FinalizeEnv))
    (h : st.inRegistry = false) : (run a st evs).inRegistry = false := by
  induction evs generalizing st with
  | nil => simpa [run] using h
  | cons p evs ih =>
    show (run a (step a st p.1 p.2) evs).inRegistry = false
    exact ih _ (step_inRegistry_false a st p.1 p.2 h)

lemma step_malformed_id (a : Bool) (st : GatewayState) (env : FinalizeEnv) :
    step a st (Event.geminiMsg none) env = st := by
  unfold step
  cases hw : st.session.geminiWs with
  | none => rfl
  | some w => simp [handleGeminiMessage, isSetupComplete]

lemma endSession_session (s : RealtimeSession) (env : FinalizeEnv) :
    (endSession s env).session = closeGemini s := by
  by_cases hc : s.userTranscription ≠ "" ∨ s.modelTranscription ≠ "" <;>
    cases hsi : env.saveInteractionResult <;>
      unfold endSession <;> simp only [hc, hsi, if_true, if_false] <;>
        split_ifs <;> simp

lemma endSession_toClient_empty_of_fail (s : RealtimeSession) (env : FinalizeEnv)
    (h : env.saveInteractionResult = none ∨ env.saveVoiceSessionOk = false) :
    (endSession s env).toClient = [] := by
  rcases h with h1 | h2
  · by_cases hc : s.userTranscription ≠ "" ∨ s.modelTranscription ≠ "" <;>
      unfold endSession <;> simp [hc, h1]
  · by_cases hc : s.userTranscription ≠ "" ∨ s.modelTranscription ≠ "" <;>
      cases hsi : env.saveInteractionResult <;>
        unfold endSession <;> simp [hc, hsi, h2]

set_option maxHeartbeats 2000000 in
lemma sessionSaved_only_on_success (s2 : RealtimeSession) (env2 : FinalizeEnv)
    (iid : String) (uu tu : Option String)
    (hin : ClientFrame.sessionSaved iid uu tu ∈ (endSession s2 env2).toClient) :
    env2.saveInteractionResult = some iid
    ∧ env2.saveVoiceSessionOk = true
    ∧ env2.clientOpen = true
    ∧ (env2.cloudinaryConfigured = true ∧ (truthy uu = true ∨ truthy tu = true) →
        env2.updateUrlsOk = true) := by
  by_cases hu : s2.userTranscription = "" <;> by_cases hm : s2.modelTranscription = "" <;>
    cases hsi : env2.saveInteractionResult <;>
      simp only [endSession, hu, hm, hsi] at hin <;>
        split_ifs at hin <;> simp_all

/-! ## Claims -/

/-- Claim C1 (code bug): the spec requires the Finalizer to run at most
once per session, but `endSession` has no guard — when the client sends an
`end` intent and the socket then closes (the ordinary shutdown sequence),
the `endSession` body runs twice and `saveInteraction` is called twice,
persisting the same session in duplicate. -/
theorem claim1_double_finalize :
    (run true (initState "s1" none 0) normalTrace).finalizeCount = 2
    ∧ countSaveInteraction (run true (initState "s1" none 0) normalTrace).calls = 2 := by
  decide

/-- Claim C2: transcript deltas delivered in order accumulate by pure
concatenation — after any sequence of input and output transcription
deltas, each buffer equals its prior contents followed by the
concatenation of its deltas in arrival order, with no loss, reordering or
truncation. -/
theorem claim2_transcript_concat (s : RealtimeSession) (ds : List TranscriptDelta) :
    (processDeltas s ds).userTranscription
        = s.userTranscription ++ String.join (userTexts ds)
    ∧ (processDeltas s ds).modelTranscription
        = s.modelTranscription ++ String.join (modelTexts ds) := by
  induction ds generalizing s with
  | nil => simp [processDeltas, userTexts, modelTexts, String.join, String.append_empty]
  | cons d ds ih =>
    cases d with
    | userD t =>
      have h1 : processDeltas s (TranscriptDelta.userD t :: ds)
          = processDeltas { s with userTranscription := s.userTranscription ++ t } ds := by
        simp [processDeltas, handleGemini_userDelta]
      rw [h1]
      constructor
      · rw [(ih _).1, userTexts, join_cons, String.append_assoc]
      · rw [(ih _).2, modelTexts]
    | modelD t =>
      have h1 : processDeltas s (TranscriptDelta.modelD t :: ds)
          = processDeltas { s with modelTranscription := s.modelTranscription ++ t } ds := by
        simp [processDeltas, handleGemini_modelDelta]
      rw [h1]
      constructor
      · rw [(ih _).1, userTexts]
      · rw [(ih _).2, modelTexts, join_cons, String.append_assoc]

set_option maxHeartbeats 2000000 in
/-- Claim C3: finalization makes no storage call at all (and sends no
frame) exactly when both transcription buffers are empty; when at least
one buffer is non-empty, `saveInteraction` is called, and
`saveVoiceSession` is called whenever `saveInteraction` returned an
interaction id. -/
theorem claim3_persistence_gate (s : RealtimeSession) (env : FinalizeEnv) :
    (((endSession s env).calls = [] ∧ (endSession s env).toClient = [])
        ↔ (s.userTranscription = "" ∧ s.modelTranscription = ""))
    ∧ (hasSaveInteraction (endSession s env).calls
        = (s.userTranscription != "" || s.modelTranscription != ""))
    ∧ (hasSaveVoiceSession (endSession s env).calls
        = ((s.userTranscription != "" || s.modelTranscription != "")
            && env.saveInteractionResult.isSome)) := by
  by_cases hu : s.userTranscription = "" <;> by_cases hm : s.modelTranscription = "" <;>
    cases hsi : env.saveInteractionResult <;>
      simp only [endSession, hu, hm, hsi, hasSaveInteraction, hasSaveVoiceSession] <;>
        split_ifs <;> simp_all

/-- Witness for C3: an empty session skips persistence entirely; a session
with transcripts calls both `saveInteraction` and `saveVoiceSession`. -/
theorem claim3_witness :
    (endSession (initState "e1" none 0).session envOk).calls = []
    ∧ hasSaveInteraction (endSession sessionHello envOk).calls = true
    ∧ hasSaveVoiceSession (endSession sessionHello envOk).calls = true := by
  refine ⟨(((claim3_persistence_gate (initState "e1" none 0).session envOk).1).mpr
      ⟨rfl, rfl⟩).1, ?_, ?_⟩
  · rw [(claim3_persistence_gate sessionHello envOk).2.1]
    decide
  · rw [(claim3_persistence_gate sessionHello envOk).2.2]
    decide

/-- Counterexample to claim C4 as stated: after an explicit `end` intent
the Finalizer has completed once, yet the session is still in the
registry — `handleClientMessage` never calls `sessions.delete`. -/
theorem claim4_counterexample :
    (run true (initState "s1" none 0) (normalTrace.take 5)).finalizeCount = 1
    ∧ (run true (initState "s1" none 0) (normalTrace.take 5)).inRegistry = true := by
  decide

/-- Claim C4 as amended: the session is removed from the registry exactly
by the client-socket close handler — after a close event the session id is
gone and stays gone for the rest of the trace, whatever else happens. -/
theorem claim4_amended_thm (a : Bool) (st : GatewayState) (env : FinalizeEnv)
    (evs : List (Event × FinalizeEnv)) :
    (run a (step a st Event.clientClose env) evs).inRegistry = false :=
  run_inRegistry_false a _ evs rfl

/-- Counterexample to claim C5 as stated: with a non-empty transcript, a
still-connected client and `saveInteraction` throwing, `endSession` sends
the client nothing at all — the best-effort notification promised by the
spec does not exist, because the `session_saved` send sits inside the same
try block as the persistence calls. -/
theorem claim5_counterexample :
    sessionHello.userTranscription ≠ ""
    ∧ envSaveFails.clientOpen = true
    ∧ envSaveFails.saveInteractionResult = none
    ∧ hasSaveInteraction (endSession sessionHello envSaveFails).calls = true
    ∧ (endSession sessionHello envSaveFails).toClient = [] := by
  decide

/-- Claim C5 as amended: a persistence failure is caught and logged and is
non-fatal — the upstream socket is still closed and the close handler
still removes the session from the registry — but the client receives no
notification at all: when `saveInteraction` or `saveVoiceSession` throws
nothing is sent, and in every run a `session_saved` frame exists only if
`saveInteraction` and `saveVoiceSession` succeeded, the client is still
open, and any attempted voice-session URL update also succeeded (so a
throwing `updateVoiceSessionAudioUrls` likewise suppresses the frame). -/
theorem claim5_amended_thm (s : RealtimeSession) (env : FinalizeEnv)
    (h : env.saveInteractionResult = none ∨ env.saveVoiceSessionOk = false) :
    (endSession s env).toClient = []
    ∧ (endSession s env).session = closeGemini s
    ∧ (∀ (s2 : RealtimeSession) (env2 : FinalizeEnv) (iid : String)
        (uu tu : Option String),
        ClientFrame.sessionSaved iid uu tu ∈ (endSession s2 env2).toClient →
          env2.saveInteractionResult = some iid
          ∧ env2.saveVoiceSessionOk = true
          ∧ env2.clientOpen = true
          ∧ (env2.cloudinaryConfigured = true ∧ (truthy uu = true ∨ truthy tu = true) →
              env2.updateUrlsOk = true))
    ∧ (∀ (a : Bool) (st : GatewayState) (env2 : FinalizeEnv),
        (step a st Event.clientClose env2).inRegistry = false) :=
  ⟨endSession_toClient_empty_of_fail s env h,
   endSession_session s env,
   fun s2 env2 iid uu tu hin => sessionSaved_only_on_success s2 env2 iid uu tu hin,
   fun _ _ _ => rfl⟩

/-- Witness for the amended C5: concrete runs in which `saveInteraction`
throws, in which `saveVoiceSession` throws, and a successful run whose
`session_saved` frame certifies that persistence succeeded. -/
theorem claim5_witness :
    (endSession sessionHello envSaveFails).toClient = []
    ∧ (endSession sessionHello envVoiceFails).toClient = []
    ∧ (endSession sessionHello envSaveFails).session = closeGemini sessionHello
    ∧ envOk.saveInteractionResult = some "int1"
    ∧ envOk.saveVoiceSessionOk = true :=
  ⟨(claim5_amended_thm sessionHello envSaveFails (Or.inl rfl)).1,
   (claim5_amended_thm sessionHello envVoiceFails (Or.inr rfl)).1,
   (claim5_amended_thm sessionHello envSaveFails (Or.inl rfl)).2.1,
   ((claim5_amended_thm sessionHello envSaveFails (Or.inl rfl)).2.2.1 sessionHello envOk
      "int1" none none (by decide)).1,
   ((claim5_amended_thm sessionHello envSaveFails (Or.inl rfl)).2.2.1 sessionHello envOk
      "int1" none none (by decide)).2.1⟩

/-- Claim C6: an `audio` intent arriving while the upstream handle is
absent or not OPEN makes the session send the client an explicit
"not ready" error frame and forward nothing upstream — the audio is never
dropped without notification. -/
theorem claim6_not_ready_notice (s : RealtimeSession) (d : String)
    (h : geminiNotReady s = true) :
    (forwardAudioToGemini s d).toClient = [ClientFrame.errorF "Gemini connection not ready"]
    ∧ (forwardAudioToGemini s d).toGemini = [] := by
  simp [forwardAudioToGemini, h]

/-- Witness for C6 on a fresh session (no upstream handle yet). -/
theorem claim6_witness :
    (forwardAudioToGemini sessionFresh "QUJD").toClient
        = [ClientFrame.errorF "Gemini connection not ready"]
    ∧ (forwardAudioToGemini sessionFresh "QUJD").toGemini = [] :=
  claim6_not_ready_notice sessionFresh "QUJD" (by decide)

/-- Claim C7: with object storage configured and both audio buffers
non-empty, a failed AI-audio upload does not block the user-audio upload
or teardown — both uploads are attempted, the `session_saved` frame
carries the user URL and omits the translation URL, and the voice-session
record update contains only the successful URL. -/
theorem claim7_independent_uploads (s : RealtimeSession) (env : FinalizeEnv)
    (iid url : String)
    (hne : s.userTranscription ≠ "" ∨ s.modelTranscription ≠ "")
    (hcl : env.cloudinaryConfigured = true)
    (hua : s.userAudioChunks ≠ [])
    (haa : s.aiAudioChunks ≠ [])
    (hsi : env.saveInteractionResult = some iid)
    (hsv : env.saveVoiceSessionOk = true)
    (huu : env.uploadUserResult = some url)
    (hurl : url ≠ "")
    (hau : env.uploadAiResult = none)
    (hup : env.updateUrlsOk = true)
    (hco : env.clientOpen = true) :
    (endSession s env).toClient = [ClientFrame.sessionSaved iid (some url) none]
    ∧ DbCall.uploadBufferC s.userAudioChunks.flatten iid "user" ∈ (endSession s env).calls
    ∧ DbCall.uploadBufferC s.aiAudioChunks.flatten iid "ai" ∈ (endSession s env).calls
    ∧ DbCall.updateAudioUrlsC iid (some url) none ∈ (endSession s env).calls
    ∧ (endSession s env).session = closeGemini s
    ∧ updateVoiceSessionAudioUrlsData (some url) none = [("userAudioUrl", url)] := by
  unfold endSession
  rw [if_pos hne, hsi]
  simp [hcl, hua, haa, hsv, huu, hau, hup, hco, truthy, hurl, updateVoiceSessionAudioUrlsData]

/-- Witness for C7 at a concrete session and oracle. -/
theorem claim7_witness :
    (endSession sessionWithAudio envAiUploadFails).toClient
        = [ClientFrame.sessionSaved "int1" (some "https://cdn.example/user.wav") none]
    ∧ DbCall.uploadBufferC sessionWithAudio.userAudioChunks.flatten "int1" "user"
        ∈ (endSession sessionWithAudio envAiUploadFails).calls
    ∧ DbCall.uploadBufferC sessionWithAudio.aiAudioChunks.flatten "int1" "ai"
        ∈ (endSession sessionWithAudio envAiUploadFails).calls
    ∧ DbCall.updateAudioUrlsC "int1" (some "https://cdn.example/user.wav") none
        ∈ (endSession sessionWithAudio envAiUploadFails).calls
    ∧ (endSession sessionWithAudio envAiUploadFails).session = closeGemini sessionWithAudio
    ∧ updateVoiceSessionAudioUrlsData (some "https://cdn.example/user.wav") none
        = [("userAudioUrl", "https://cdn.example/user.wav")] :=
  claim7_independent_uploads sessionWithAudio envAiUploadFails "int1" "https://cdn.example/user.wav"
    (Or.inl (by decide)) rfl (by decide) (by decide) rfl rfl rfl (by decide) rfl rfl rfl

/-- Counterexample to claim C8 as stated: immediately after the setup
intent is processed the session is in Configuring with `geminiWs` already
non-null, and after the session is Closed `geminiWs` is still non-null —
the handle is assigned before the upstream is ready and never reset. -/
theorem claim8_counterexample :
    (run true (initState "s1" none 0)
        [(Event.clientMsg (ClientMsg.setup (some "en") (some "hi")), envOk)]).phase
      = SessionPhase.configuring
    ∧ (run true (initState "s1" none 0)
        [(Event.clientMsg (ClientMsg.setup (some "en") (some "hi")), envOk)]).session.geminiWs
      ≠ none
    ∧ (run true (initState "s1" none 0) normalTrace).phase = SessionPhase.closedP
    ∧ (run true (initState "s1" none 0) normalTrace).session.geminiWs ≠ none := by
  decide

/-- Claim C8 as amended: over every reachable state, `geminiWs` is null
throughout Connecting and non-null in Streaming; the original biconditional
fails only in that the handle is already non-null during Configuring and
remains non-null after Closed. -/
theorem claim8_amended_thm (a : Bool) (sid : String) (uid : Option String) (t0 : Nat)
    (evs : List (Event × FinalizeEnv)) :
    ((run a (initState sid uid t0) evs).phase = SessionPhase.connecting →
        (run a (initState sid uid t0) evs).session.geminiWs = none)
    ∧ ((run a (initState sid uid t0) evs).phase = SessionPhase.streaming →
        (run a (initState sid uid t0) evs).session.geminiWs ≠ none) :=
  phaseInv_run a (initState sid uid t0) evs ⟨fun _ => rfl, by simp [initState]⟩

/-- Witness for the amended C8: the empty trace is Connecting with no
handle; after setup, open and ready the session is Streaming with one. -/
theorem claim8_witness :
    (run true (initState "w1" none 0) []).session.geminiWs = none
    ∧ (run true (initState "w1" none 0) (normalTrace.take 3)).session.geminiWs ≠ none :=
  ⟨(claim8_amended_thm true "w1" none 0 []).1 rfl,
   (claim8_amended_thm true "w1" none 0 (normalTrace.take 3)).2 (by decide)⟩

/-- Claim C9: a malformed (unparseable) upstream frame is dropped without
any effect — the session record, the registry state and all outputs are
unchanged, and the rest of the event stream is processed exactly as if the
malformed frame had never arrived. -/
theorem claim9_malformed_dropped :
    (∀ s : RealtimeSession, handleGeminiMessage s none = (s, []))
    ∧ (∀ (a : Bool) (st : GatewayState) (env : FinalizeEnv),
        step a st (Event.geminiMsg none) env = st)
    ∧ (∀ (a : Bool) (st : GatewayState) (env : FinalizeEnv)
        (evs : List (Event × FinalizeEnv)),
        run a st ((Event.geminiMsg none, env) :: evs) = run a st evs) := by
  refine ⟨fun s => rfl, step_malformed_id, fun a st env evs => ?_⟩
  show run a (step a st (Event.geminiMsg none) env) evs = run a st evs
  rw [step_malformed_id]

/-- Claim C10: an `audio` intent rejected because the upstream is not
ready changes no session field — in particular the bytes are not appended
to `userAudioChunks` — and in general the chunk buffer grows exactly by
the payloads actually forwarded upstream. -/
theorem claim10_reject_no_mutation (s : RealtimeSession) (d : String)
    (h : geminiNotReady s = true) :
    (forwardAudioToGemini s d).session = s
    ∧ (forwardAudioToGemini s d).toGemini = []
    ∧ ∀ (s2 : RealtimeSession) (d2 : String),
        (forwardAudioToGemini s2 d2).session.userAudioChunks
          = s2.userAudioChunks ++ ((forwardAudioToGemini s2 d2).toGemini.map upstreamAudioBytes) := by
  refine ⟨by simp [forwardAudioToGemini, h], by simp [forwardAudioToGemini, h], ?_⟩
  intro s2 d2
  unfold forwardAudioToGemini
  split <;> simp [upstreamAudioBytes]

/-- Witness for C10 on a fresh session (no upstream handle yet). -/
theorem claim10_witness :
    (forwardAudioToGemini sessionFresh "AAAA").session = sessionFresh
    ∧ (forwardAudioToGemini sessionFresh "AAAA").toGemini = [] :=
  ⟨(claim10_reject_no_mutation sessionFresh "AAAA" (by decide)).1,
   (claim10_reject_no_mutation sessionFresh "AAAA" (by decide)).2.1⟩

end Realtime
